import Mathlib

/-!
A shallow embedding of the gameplay simulation in src/main.rs of the madge
repository: a fixed-timestep arcade shooter with a keyboard-driven player,
an auto-firing weapon, and homing enemies, built on the bevy 0.7 / glam 0.20
libraries.

Modelling conventions:
* f32 scalars are modelled as exact rationals; every claim settled here is
  robust to f32 rounding, since the quantities involved are far from the
  relevant decision thresholds.
* Quaternion rotations about the Z axis are modelled as real-number radian
  angles; composing two Z-rotation quaternions adds the angles.
* The entity store is modelled as lists of per-kind records. bevy Commands
  (spawn_bundle, despawn_recursive) are deferred until the running system
  finishes, so inside player_shooting_system the query snapshot excludes the
  bullet spawned this tick, and despawns apply after the iteration.
* bevy Query::single and Query::single_mut panic unless exactly one entity
  matches the query; the panic is modelled by Option.none.
* glam Vec3 of the bevy 0.7 era reaches PartialOrd through its field-storage
  struct, whose ordering is derived and hence lexicographic by (x, y, z).
  The PartialOrd gt and lt calls on lines 203-204 of src/main.rs therefore
  compare lexicographically on NaN-free inputs; the component-wise
  comparisons of glam are the separately named cmpgt / cmplt masks, which
  this program does not use.
-/

namespace Madge

/-- glam Vec3 with rational components (exact model of the f32 vector). -/
structure Vec3q where
  x : ℚ
  y : ℚ
  z : ℚ
deriving DecidableEq

/-- Component-wise vector addition (glam Vec3 Add). -/
def Vec3q.add (a b : Vec3q) : Vec3q := ⟨a.x + b.x, a.y + b.y, a.z + b.z⟩

/-- Component-wise vector subtraction (glam Vec3 Sub). -/
def Vec3q.sub (a b : Vec3q) : Vec3q := ⟨a.x - b.x, a.y - b.y, a.z - b.z⟩

/-- Component-wise negation (glam Vec3 Neg). -/
def Vec3q.neg (a : Vec3q) : Vec3q := ⟨-a.x, -a.y, -a.z⟩

/-- Scalar multiplication of a vector (glam f32 * Vec3 and Vec3 * f32). -/
def Vec3q.smul (c : ℚ) (a : Vec3q) : Vec3q := ⟨c * a.x, c * a.y, c * a.z⟩

/-- glam Vec3::min, component-wise minimum. -/
def Vec3q.minv (a b : Vec3q) : Vec3q := ⟨min a.x b.x, min a.y b.y, min a.z b.z⟩

/-- glam Vec3::max, component-wise maximum. -/
def Vec3q.maxv (a b : Vec3q) : Vec3q := ⟨max a.x b.x, max a.y b.y, max a.z b.z⟩

/-- PartialOrd gt as resolved on glam Vec3 (bevy 0.7 era): the derived,
lexicographic ordering on the fields (x, y, z), restricted to NaN-free
inputs. This is what `bullet_transform.translation.gt(&extents)` on line 203
of src/main.rs calls; it is not a component-wise comparison. -/
def Vec3q.lexGt (a b : Vec3q) : Bool :=
  if a.x > b.x then true
  else if a.x < b.x then false
  else if a.y > b.y then true
  else if a.y < b.y then false
  else decide (a.z > b.z)

/-- PartialOrd lt as resolved on glam Vec3 (bevy 0.7 era): the derived,
lexicographic ordering on the fields (x, y, z), restricted to NaN-free
inputs. This is what `bullet_transform.translation.lt(&-extents)` on line
204 of src/main.rs calls. -/
def Vec3q.lexLt (a b : Vec3q) : Bool :=
  if a.x < b.x then true
  else if a.x > b.x then false
  else if a.y < b.y then true
  else if a.y > b.y then false
  else decide (a.z < b.z)

/-- `const TIME_STEP: f32 = 1.0 / 60.0;` (src/main.rs line 11). -/
def TIME_STEP : ℚ := 1 / 60

/-- `const BOUNDS: Vec2 = const_vec2!([1200.0, 640.0]);` (line 12). -/
def BOUNDS : ℚ × ℚ := (1200, 640)

/-- `let extents = Vec3::from((BOUNDS / 2.0, 0.0));` (lines 202 and 252). -/
def extents : Vec3q := ⟨BOUNDS.1 / 2, BOUNDS.2 / 2, 0⟩

/-- The Player component (lines 31-37): linear speed in units per second and
rotation speed in radians per second. -/
structure Player where
  velocity : ℚ
  rotation_speed : ℝ

/-- A bevy Transform restricted to what the simulation uses: a translation
and a rotation about the Z axis, the latter as a radian angle. -/
structure Transform where
  translation : Vec3q
  rotation : ℝ

/-- The Bullet component (lines 39-43). -/
structure Bullet where
  velocity : ℚ
  direction : Vec3q
deriving DecidableEq

/-- A bullet entity: its Bullet component together with its Transform
translation (bullet rotations are never read or written). -/
structure BulletEnt where
  bullet : Bullet
  translation : Vec3q
deriving DecidableEq

/-- The Enemy component (lines 45-48). -/
structure Enemy where
  velocity : ℚ
deriving DecidableEq

/-- An enemy entity: its Enemy component together with its translation. -/
structure EnemyEnt where
  enemy : Enemy
  translation : Vec3q
deriving DecidableEq

/-- The held-key snapshot read by player_movement_system (lines 221-243):
rotate keys Q and E and the four directional arrow keys. -/
structure Keys where
  keyQ : Bool
  keyE : Bool
  up : Bool
  down : Bool
  left : Bool
  right : Bool
deriving DecidableEq

/-- Lines 218-227: rotation_factor starts at 0, Q adds 1, E subtracts 1. -/
def rotation_factor (k : Keys) : ℚ :=
  (if k.keyQ then (1 : ℚ) else 0) + (if k.keyE then (-1 : ℚ) else 0)

/-- Lines 219-243: the movement vector starts at 0 * Vec3::X; Up adds
1 * Vec3::Y, Down subtracts 1 * Vec3::Y, Left subtracts 1 * Vec3::X, Right
adds 1 * Vec3::X. It is never normalized. -/
def key_velocity (k : Keys) : Vec3q :=
  let v : Vec3q := ⟨0, 0, 0⟩
  let v := if k.up then v.add ⟨0, 1, 0⟩ else v
  let v := if k.down then v.sub ⟨0, 1, 0⟩ else v
  let v := if k.left then v.sub ⟨1, 0, 0⟩ else v
  let v := if k.right then v.add ⟨1, 0, 0⟩ else v
  v

/-- Lines 248-253: the translation update of player_movement_system.
movement_distance = player.velocity * TIME_STEP, translation_delta =
velocity_vector * movement_distance, then the moved translation is clamped
by min(extents) followed by max(-extents). -/
def movement_translation (k : Keys) (velocity : ℚ) (translation : Vec3q) : Vec3q :=
  let movement_distance := velocity * TIME_STEP
  let translation_delta := (key_velocity k).smul movement_distance
  let moved := translation.add translation_delta
  (moved.minv extents).maxv extents.neg

/-- player_movement_system (lines 212-254) acting on the unique player. The
rotation update `transform.rotation *= Quat::from_rotation_z(rotation_factor
* player.rotation_speed * TIME_STEP)` composes Z-rotations, i.e. adds the
radian angles. -/
noncomputable def player_movement_system (k : Keys) (player : Player)
    (transform : Transform) : Transform :=
  { translation := movement_translation k player.velocity transform.translation
    rotation := transform.rotation +
      (rotation_factor k : ℝ) * player.rotation_speed * ((TIME_STEP : ℚ) : ℝ) }

/-- Lines 196-200: one bullet advance. distance = bullet.velocity *
TIME_STEP; movement_delta = distance * bullet.direction; the translation is
incremented by movement_delta. -/
def bullet_advance (b : BulletEnt) : BulletEnt :=
  let distance := b.bullet.velocity * TIME_STEP
  let movement_delta := Vec3q.smul distance b.bullet.direction
  ⟨b.bullet, b.translation.add movement_delta⟩

/-- Lines 202-207: the despawn condition of player_shooting_system, applied
to the post-advance translation: PartialOrd gt against extents or PartialOrd
lt against -extents, both lexicographic. -/
def bullet_out (t : Vec3q) : Bool :=
  t.lexGt extents || t.lexLt extents.neg

/-- player_shooting_system (lines 167-210) acting on the entity store. The
player query gives player_position (line 178); player_direction (line 179)
is `player_transform.rotation * Vec3::Y`, passed here as a parameter since
its transcendental value is never inspected by any claim. One new bullet
with velocity 750 and direction player_direction is spawned at
player_position through Commands (deferred, hence outside the iterated
snapshot and not advanced this tick); every pre-existing bullet is advanced
and despawned when bullet_out holds; the despawns are command-deferred, so
the end-of-tick store is the surviving advanced bullets plus the spawn. The
list order carries no ECS meaning. -/
def player_shooting_system (player_position : Vec3q) (player_direction : Vec3q)
    (bullets : List BulletEnt) : List BulletEnt :=
  let new_bullet : BulletEnt := ⟨⟨750, player_direction⟩, player_position⟩
  let advanced := bullets.map bullet_advance
  advanced.filter (fun b => !(bullet_out b.translation)) ++ [new_bullet]

/-- One enemy update of move_enemy_system (lines 159-163): direction =
player_position - enemy.translation, and the enemy translation is
incremented by direction.normalize() * enemy.velocity * TIME_STEP. glam
normalize multiplies by the reciprocal length; at the zero vector (with
glam_assert disabled, the default) the reciprocal is infinite and the
product has NaN components, modelled here as none. Otherwise the update is
the exact real-valued translation, returned as some. -/
noncomputable def move_enemy_step (player_position : Vec3q) (e : EnemyEnt) :
    Option (ℝ × ℝ × ℝ) :=
  let d := player_position.sub e.translation
  if d = ⟨0, 0, 0⟩ then none
  else
    let len : ℝ := Real.sqrt ((d.x : ℝ) ^ 2 + (d.y : ℝ) ^ 2 + (d.z : ℝ) ^ 2)
    some ((e.translation.x : ℝ) + (d.x : ℝ) / len * (e.enemy.velocity : ℝ) * ((TIME_STEP : ℚ) : ℝ),
          (e.translation.y : ℝ) + (d.y : ℝ) / len * (e.enemy.velocity : ℝ) * ((TIME_STEP : ℚ) : ℝ),
          (e.translation.z : ℝ) + (d.z : ℝ) / len * (e.enemy.velocity : ℝ) * ((TIME_STEP : ℚ) : ℝ))

/-- bevy Query::single and Query::single_mut: the unique matching entity,
panicking (none) when the match count is zero or at least two. -/
def query_single {α : Type} (l : List α) : Option α :=
  match l with
  | [a] => some a
  | _ => none

/-- player_movement_system as scheduled: line 216 queries the unique player
with single_mut, panicking (none) unless exactly one Player entity exists. -/
noncomputable def run_player_movement (k : Keys)
    (players : List (Player × Transform)) : Option Transform :=
  (query_single players).map (fun pt => player_movement_system k pt.1 pt.2)

/-- player_shooting_system as scheduled: lines 175-176 query the unique
player with single, panicking (none) unless exactly one Player exists. -/
def run_player_shooting (players : List (Player × Transform))
    (heading : Vec3q) (bullets : List BulletEnt) : Option (List BulletEnt) :=
  (query_single players).map
    (fun pt => player_shooting_system pt.2.translation heading bullets)

/-- move_enemy_system as scheduled (lines 148-165): lines 155-156 query the
unique player with single, panicking (none) unless exactly one Player
exists; then every enemy is stepped toward the player position. -/
noncomputable def move_enemy_system (players : List (Player × Transform))
    (enemies : List EnemyEnt) : Option (List (Option (ℝ × ℝ × ℝ))) :=
  (query_single players).map
    (fun pt => enemies.map (move_enemy_step pt.2.translation))

/-- The EnemySpawnConfig timer (lines 55-57, 114-116): a repeating bevy
Timer with its elapsed time and duration in seconds. -/
structure TimerState where
  elapsed : ℚ
  duration : ℚ
deriving DecidableEq

/-- bevy 0.7 Timer::tick followed by Timer::finished for a repeating timer:
the elapsed time grows by the wall-clock delta; the timer finishes on the
tick where it reaches the duration, and then wraps modulo the duration. -/
def timer_tick (t : TimerState) (delta : ℚ) : TimerState × Bool :=
  let e := t.elapsed + delta
  if e ≥ t.duration then
    (⟨e - t.duration * (⌊e / t.duration⌋ : ℚ), t.duration⟩, true)
  else
    (⟨e, t.duration⟩, false)

/-- A spawned enemy record: Enemy component, real-valued spawn translation,
and rotation angle (Transform::from_xyz leaves the rotation at identity). -/
structure EnemySpawn where
  enemy : Enemy
  translation : ℝ × ℝ × ℝ
  rotation : ℝ

/-- setup_spawn_enemy (lines 119-146). θ is the sampled
`rng.gen::<f32>() * 2.0 * PI`; line 127 destructures `rand_angle.sin_cos()`,
which returns the pair (sine, cosine), into (x, y). The sprite transform is
Transform::from_xyz(x * 400.0, y * 400.0, 0.0) with identity rotation. The
timer ticks by the wall-clock delta, and when it finishes one Enemy with
velocity 250 is spawned at that transform. -/
noncomputable def setup_spawn_enemy (θ : ℝ) (config : TimerState) (delta : ℚ) :
    TimerState × List EnemySpawn :=
  let x := Real.sin θ
  let y := Real.cos θ
  let ticked := timer_tick config delta
  (ticked.1,
   if ticked.2 then [⟨⟨250⟩, (x * 400, y * 400, 0), 0⟩] else [])

/-- The simulation-relevant state established by setup. -/
structure World where
  score : ℕ
  players : List (Player × Transform)
  bullets : List BulletEnt
  enemies : List EnemyEnt
  spawn_config : TimerState

/-- setup (lines 59-117): score set to 0; one bullet spawned with velocity
750 and direction 1.0 * Vec3::Y at the default transform (the origin); one
player spawned with velocity 500 and rotation_speed of 360 degrees in
radians, at the default transform; the EnemySpawnConfig timer created with a
500 ms repeating period. The camera and text bundles carry no Player, Bullet
or Enemy component. -/
noncomputable def setup : World :=
  { score := 0
    players := [(⟨500, 2 * Real.pi⟩, ⟨⟨0, 0, 0⟩, 0⟩)]
    bullets := [⟨⟨750, ⟨0, 1, 0⟩⟩, ⟨0, 0, 0⟩⟩]
    enemies := []
    spawn_config := ⟨0, 1 / 2⟩ }

/-- Repeated bullet advance (the Shooting advance phase iterated over
consecutive ticks, for a bullet that survives culling). -/
def bullet_iterate : ℕ → BulletEnt → BulletEnt
  | 0, b => b
  | n + 1, b => bullet_advance (bullet_iterate n b)

/-- Follows the words of the spec, for comparison with bullet_out: a
position is outside the arena when ANY single component exceeds the positive
extent or is below the negative extent. -/
def spec_out_any_component (t : Vec3q) : Bool :=
  decide (t.x > extents.x) || decide (t.y > extents.y) || decide (t.z > extents.z) ||
  decide (t.x < -extents.x) || decide (t.y < -extents.y) || decide (t.z < -extents.z)

/-- Membership of a position in the arena box, component-wise. -/
def in_bounds (v : Vec3q) : Prop :=
  -extents.x ≤ v.x ∧ v.x ≤ extents.x ∧ -extents.y ≤ v.y ∧ v.y ≤ extents.y ∧
  -extents.z ≤ v.z ∧ v.z ≤ extents.z

instance (v : Vec3q) : Decidable (in_bounds v) := by
  unfold in_bounds
  infer_instance

/-- Mapping a function over an Option preserves noneness. -/
theorem isNone_map {α β : Type} (o : Option α) (f : α → β) :
    (o.map f).isNone = o.isNone := by
  cases o <;> rfl

/-- query_single is none exactly when the match count is not one. -/
theorem query_single_length {α : Type} (l : List α) :
    (query_single l).isNone = true ↔ l.length ≠ 1 := by
  cases l with
  | nil => simp [query_single]
  | cons a tl =>
    cases tl with
    | nil => simp [query_single]
    | cons b t2 => simp [query_single]

/-- The clamp of player_movement_system is the identity on positions already
inside the arena box. -/
theorem clamp_id (v : Vec3q) (h : in_bounds v) :
    (v.minv extents).maxv extents.neg = v := by
  obtain ⟨h1, h2, h3, h4, h5, h6⟩ := h
  simp only [Vec3q.minv, Vec3q.maxv, Vec3q.neg]
  rw [min_eq_left h2, min_eq_left h4, min_eq_left h6,
    max_eq_left h1, max_eq_left h3, max_eq_left h5]

/-- Closed form for the bullet of the last testable scenario of the spec:
spawned at the origin with direction +Y and speed 750, after n Shooting
advance phases it sits at y = n * 12.5. -/
theorem bullet_iterate_closed (n : ℕ) :
    bullet_iterate n ⟨⟨750, ⟨0, 1, 0⟩⟩, ⟨0, 0, 0⟩⟩ =
      ⟨⟨750, ⟨0, 1, 0⟩⟩, ⟨0, (n : ℚ) * (25 / 2), 0⟩⟩ := by
  induction n with
  | zero => norm_num [bullet_iterate]
  | succ m ih =>
    simp only [bullet_iterate, ih, bullet_advance, Vec3q.add, Vec3q.smul, TIME_STEP,
      Vec3q.mk.injEq, BulletEnt.mk.injEq]
    push_cast
    norm_num
    ring

/-- Claim C1: for every tick and every combination of held movement keys
(including all held simultaneously), after the Movement subsystem runs, the
player translation lies within the arena box [-extents, +extents]
component-wise on both axes, where extents = (600, 320). -/
theorem claim1_movement_bounds (k : Keys) (p : Player) (t : Transform) :
    -600 ≤ (player_movement_system k p t).translation.x ∧
    (player_movement_system k p t).translation.x ≤ 600 ∧
    -320 ≤ (player_movement_system k p t).translation.y ∧
    (player_movement_system k p t).translation.y ≤ 320 := by
  have hets : extents = ⟨600, 320, 0⟩ := by
    norm_num [extents, BOUNDS]
  simp only [player_movement_system, movement_translation, hets, Vec3q.minv, Vec3q.maxv,
    Vec3q.neg]
  exact ⟨le_max_right _ _, max_le (min_le_right _ _) (by norm_num),
    le_max_right _ _, max_le (min_le_right _ _) (by norm_num)⟩

/-- Claim C2 (divergence): the claim says a bullet is removed exactly when
any single post-advance component exits [-extents, +extents]. On the code, a
bullet at (0, 320, 0) with direction +Y and speed 750 advances to
(0, 332.5, 0), whose y component exceeds the extent 320, yet the
PartialOrd-based removal test of lines 203-204 is false (the comparison is
lexicographic and the x component 0 decides it), so the bullet is kept. -/
theorem claim2_cull_divergence :
    bullet_out ((bullet_advance ⟨⟨750, ⟨0, 1, 0⟩⟩, ⟨0, 320, 0⟩⟩).translation) = false ∧
    spec_out_any_component
      ((bullet_advance ⟨⟨750, ⟨0, 1, 0⟩⟩, ⟨0, 320, 0⟩⟩).translation) = true ∧
    320 < ((bullet_advance ⟨⟨750, ⟨0, 1, 0⟩⟩, ⟨0, 320, 0⟩⟩).translation).y := by
  norm_num [bullet_out, bullet_advance, spec_out_any_component, Vec3q.lexGt, Vec3q.lexLt,
    Vec3q.add, Vec3q.smul, Vec3q.neg, extents, BOUNDS, TIME_STEP]

/-- Claim C3 (divergence): with one pre-existing bullet at (0, 320, 0),
direction +Y, speed 750, and the player at the origin, one Shooting tick
ends with 2 bullets, while the claim formula
before + 1 - (number with any component outside) predicts 1 + 1 - 1 = 1:
the lexicographic removal test culls nothing. -/
theorem claim3_count_divergence :
    (player_shooting_system ⟨0, 0, 0⟩ ⟨0, 1, 0⟩
        [⟨⟨750, ⟨0, 1, 0⟩⟩, ⟨0, 320, 0⟩⟩]).length = 2 ∧
    (([⟨⟨750, ⟨0, 1, 0⟩⟩, ⟨0, 320, 0⟩⟩] : List BulletEnt).map bullet_advance).countP
      (fun b => spec_out_any_component b.translation) = 1 ∧
    (2 : ℕ) ≠ 1 + 1 - 1 := by
  norm_num [player_shooting_system, bullet_advance, bullet_out, spec_out_any_component,
    Vec3q.lexGt, Vec3q.lexLt, Vec3q.add, Vec3q.smul, Vec3q.neg, extents, BOUNDS, TIME_STEP,
    List.countP_cons, List.countP_nil, List.filter]

/-- Claim C4 (divergence): when an enemy sits exactly at the player
position, move_enemy_system normalizes the zero vector with no guard; the
written displacement is non-finite (NaN), modelled by none — not the zero
displacement the claim describes. -/
theorem claim4_homing_nan :
    move_enemy_step ⟨0, 0, 0⟩ ⟨⟨250⟩, ⟨0, 0, 0⟩⟩ = none := by
  norm_num [move_enemy_step, Vec3q.sub]

/-- Claim C5 (counterexample): at sampled angle 0 the spawned enemy sits at
(0, 400, 0) — the code destructures sin_cos, which returns (sine, cosine),
into (x, y) — and not at the claimed (400 cos 0, 400 sin 0, 0) = (400, 0, 0). -/
theorem claim5_spawn_counterexample :
    (setup_spawn_enemy 0 ⟨0, 1 / 2⟩ (1 / 2)).2 = [⟨⟨250⟩, (0, 400, 0), 0⟩] ∧
    ((0 : ℝ), (400 : ℝ), (0 : ℝ)) ≠
      ((400 * Real.cos 0, 400 * Real.sin 0, 0) : ℝ × ℝ × ℝ) := by
  constructor
  · norm_num [setup_spawn_enemy, timer_tick, Real.sin_zero, Real.cos_zero]
  · norm_num [Prod.ext_iff, Real.cos_zero]

/-- Claim C5 (amended): when the spawn timer fires with sampled angle θ, the
new Enemy is inserted at position (400 sin θ, 400 cos θ) — which still lies
on the circle of radius 400 about the origin — with speed 250 and identity
rotation. -/
theorem claim5_spawn_amended (θ : ℝ) (config : TimerState) (delta : ℚ)
    (hfire : (timer_tick config delta).2 = true) :
    (setup_spawn_enemy θ config delta).2 =
      [⟨⟨250⟩, (Real.sin θ * 400, Real.cos θ * 400, 0), 0⟩] ∧
    (Real.sin θ * 400) ^ 2 + (Real.cos θ * 400) ^ 2 = 400 ^ 2 := by
  constructor
  · simp [setup_spawn_enemy, hfire]
  · nlinarith [Real.sin_sq_add_cos_sq θ]

/-- Claim C5 (witness): the amended statement at angle 0, with a timer whose
period has just elapsed. -/
theorem claim5_spawn_witness :
    (timer_tick ⟨0, 1 / 2⟩ (1 / 2)).2 = true ∧
    ((setup_spawn_enemy 0 ⟨0, 1 / 2⟩ (1 / 2)).2 =
        [⟨⟨250⟩, (Real.sin 0 * 400, Real.cos 0 * 400, 0), 0⟩] ∧
      (Real.sin 0 * 400) ^ 2 + (Real.cos 0 * 400) ^ 2 = 400 ^ 2) :=
  ⟨by norm_num [timer_tick],
   claim5_spawn_amended 0 ⟨0, 1 / 2⟩ (1 / 2) (by norm_num [timer_tick])⟩

/-- Claim C6: whenever exactly two orthogonal movement keys are held (one of
Up/Down together with one of Left/Right) and the clamp does not engage, the
Movement subsystem displaces the player by a vector of magnitude
linear_speed * TIME_STEP * sqrt 2. -/
theorem claim6_diagonal_speed (k : Keys) (p : Player) (t : Transform)
    (hud : k.up ≠ k.down) (hlr : k.left ≠ k.right) (hv : 0 ≤ p.velocity)
    (hin : in_bounds (t.translation.add
      ((key_velocity k).smul (p.velocity * TIME_STEP)))) :
    Real.sqrt
      ((((player_movement_system k p t).translation.sub t.translation).x : ℝ) ^ 2 +
       (((player_movement_system k p t).translation.sub t.translation).y : ℝ) ^ 2 +
       (((player_movement_system k p t).translation.sub t.translation).z : ℝ) ^ 2) =
      (p.velocity : ℝ) * ((TIME_STEP : ℚ) : ℝ) * Real.sqrt 2 := by
  have hclamp : (player_movement_system k p t).translation =
      t.translation.add ((key_velocity k).smul (p.velocity * TIME_STEP)) := by
    simp only [player_movement_system, movement_translation]
    exact clamp_id _ hin
  have hdisp : ∀ a d : Vec3q, (a.add d).sub a = d := by
    intro a d
    simp [Vec3q.add, Vec3q.sub]
  rw [hclamp, hdisp]
  have hkey : ((key_velocity k).x) ^ 2 = 1 ∧ ((key_velocity k).y) ^ 2 = 1 ∧
      (key_velocity k).z = 0 := by
    cases hu : k.up <;> cases hdn : k.down <;> cases hl : k.left <;> cases hr : k.right <;>
      rw [hu, hdn] at hud <;> rw [hl, hr] at hlr <;>
      first
      | exact absurd rfl hud
      | exact absurd rfl hlr
      | norm_num [key_velocity, hu, hdn, hl, hr, Vec3q.add, Vec3q.sub]
  obtain ⟨hkx, hky, hkz⟩ := hkey
  have hkxr : (((key_velocity k).x : ℝ)) ^ 2 = 1 := by exact_mod_cast hkx
  have hkyr : (((key_velocity k).y : ℝ)) ^ 2 = 1 := by exact_mod_cast hky
  have hkzr : (((key_velocity k).z : ℝ)) = 0 := by exact_mod_cast hkz
  have hd0 : (0 : ℝ) ≤ (p.velocity : ℝ) * ((TIME_STEP : ℚ) : ℝ) := by
    apply mul_nonneg
    · exact_mod_cast hv
    · norm_num [TIME_STEP]
  have hsum : (((key_velocity k).smul (p.velocity * TIME_STEP)).x : ℝ) ^ 2 +
      (((key_velocity k).smul (p.velocity * TIME_STEP)).y : ℝ) ^ 2 +
      (((key_velocity k).smul (p.velocity * TIME_STEP)).z : ℝ) ^ 2 =
      2 * ((p.velocity : ℝ) * ((TIME_STEP : ℚ) : ℝ)) ^ 2 := by
    simp only [Vec3q.smul]
    push_cast
    rw [mul_pow, mul_pow, mul_pow, hkxr, hkyr, hkzr]
    ring
  rw [hsum, Real.sqrt_mul (by norm_num : (0 : ℝ) ≤ 2), Real.sqrt_sq hd0]
  ring

/-- Claim C6 (witness): Up and Right held from the origin at speed 500. -/
theorem claim6_diagonal_speed_witness :
    ((⟨false, false, true, false, false, true⟩ : Keys).up ≠
      (⟨false, false, true, false, false, true⟩ : Keys).down) ∧
    ((⟨false, false, true, false, false, true⟩ : Keys).left ≠
      (⟨false, false, true, false, false, true⟩ : Keys).right) ∧
    (0 : ℚ) ≤ 500 ∧
    in_bounds ((⟨0, 0, 0⟩ : Vec3q).add
      ((key_velocity ⟨false, false, true, false, false, true⟩).smul (500 * TIME_STEP))) ∧
    Real.sqrt
      ((((player_movement_system ⟨false, false, true, false, false, true⟩
            ⟨500, 2 * Real.pi⟩ ⟨⟨0, 0, 0⟩, 0⟩).translation.sub ⟨0, 0, 0⟩).x : ℝ) ^ 2 +
       (((player_movement_system ⟨false, false, true, false, false, true⟩
            ⟨500, 2 * Real.pi⟩ ⟨⟨0, 0, 0⟩, 0⟩).translation.sub ⟨0, 0, 0⟩).y : ℝ) ^ 2 +
       (((player_movement_system ⟨false, false, true, false, false, true⟩
            ⟨500, 2 * Real.pi⟩ ⟨⟨0, 0, 0⟩, 0⟩).translation.sub ⟨0, 0, 0⟩).z : ℝ) ^ 2) =
      ((500 : ℚ) : ℝ) * ((TIME_STEP : ℚ) : ℝ) * Real.sqrt 2 :=
  ⟨by decide, by decide, by norm_num,
   by norm_num [in_bounds, key_velocity, Vec3q.add, Vec3q.smul, extents, BOUNDS, TIME_STEP],
   claim6_diagonal_speed ⟨false, false, true, false, false, true⟩ ⟨500, 2 * Real.pi⟩
     ⟨⟨0, 0, 0⟩, 0⟩ (by decide) (by decide) (by norm_num)
     (by norm_num [in_bounds, key_velocity, Vec3q.add, Vec3q.smul, extents, BOUNDS,
       TIME_STEP])⟩

/-- Claim C7 (counterexample): at speed 500 from (590, 0) holding only
move-right, one tick ends at (1795/3, 0, 0) = (598.33.., 0, 0), which is not
the claimed clamped position (600, 0, 0). -/
theorem claim7_clamp_counterexample :
    (player_movement_system ⟨false, false, false, false, false, true⟩ ⟨500, 2 * Real.pi⟩
        ⟨⟨590, 0, 0⟩, 0⟩).translation = ⟨1795 / 3, 0, 0⟩ ∧
    ((1795 / 3 : ℚ) ≠ 600) := by
  constructor
  · simp only [player_movement_system]
    norm_num [movement_translation, key_velocity, Vec3q.add, Vec3q.sub, Vec3q.smul,
      Vec3q.minv, Vec3q.maxv, Vec3q.neg, extents, BOUNDS, TIME_STEP]
  · norm_num

/-- Claim C7 (amended): at speed 500 from (590, 0) holding only move-right,
one tick at 1/60 s ends inside the arena at (590 + 500/60, 0) = (1795/3, 0)
with the clamp inactive; the clamp takes effect on the second held tick,
which ends exactly at (600, 0). -/
theorem claim7_clamp_amended :
    (player_movement_system ⟨false, false, false, false, false, true⟩ ⟨500, 2 * Real.pi⟩
        ⟨⟨590, 0, 0⟩, 0⟩).translation = ⟨1795 / 3, 0, 0⟩ ∧
    (player_movement_system ⟨false, false, false, false, false, true⟩ ⟨500, 2 * Real.pi⟩
        (player_movement_system ⟨false, false, false, false, false, true⟩
          ⟨500, 2 * Real.pi⟩ ⟨⟨590, 0, 0⟩, 0⟩)).translation = ⟨600, 0, 0⟩ := by
  constructor
  · simp only [player_movement_system]
    norm_num [movement_translation, key_velocity, Vec3q.add, Vec3q.sub, Vec3q.smul,
      Vec3q.minv, Vec3q.maxv, Vec3q.neg, extents, BOUNDS, TIME_STEP]
  · simp only [player_movement_system]
    norm_num [movement_translation, key_velocity, Vec3q.add, Vec3q.sub, Vec3q.smul,
      Vec3q.minv, Vec3q.maxv, Vec3q.neg, extents, BOUNDS, TIME_STEP]

/-- Claim C8 (divergence): the bullet spawned at the origin with direction
+Y and speed 750 first exceeds y = 320 after exactly 26 advance phases
(y = 325 at tick 26, y = 312.5 at tick 25), yet the removal test of
player_shooting_system is false at every tick — the lexicographic comparison
is decided by the x component, which stays 0 — so the bullet is never
removed, contrary to the claim that tick 26 removes it. -/
theorem claim8_bullet_never_removed :
    320 < (bullet_iterate 26 ⟨⟨750, ⟨0, 1, 0⟩⟩, ⟨0, 0, 0⟩⟩).translation.y ∧
    (bullet_iterate 25 ⟨⟨750, ⟨0, 1, 0⟩⟩, ⟨0, 0, 0⟩⟩).translation.y ≤ 320 ∧
    ∀ n : ℕ,
      bullet_out ((bullet_iterate n ⟨⟨750, ⟨0, 1, 0⟩⟩, ⟨0, 0, 0⟩⟩).translation) = false := by
  refine ⟨?_, ?_, ?_⟩
  · rw [bullet_iterate_closed]
    norm_num
  · rw [bullet_iterate_closed]
    norm_num
  · intro n
    rw [bullet_iterate_closed]
    norm_num [bullet_out, Vec3q.lexGt, Vec3q.lexLt, Vec3q.neg, extents, BOUNDS]

/-- Claim C9: each per-tick subsystem that queries the unique player
(Movement, Shooting, Homing) panics — modelled by none — exactly when the
number of Player entities differs from one, and succeeds when exactly one
Player entity exists. -/
theorem claim9_single_player_panic (k : Keys) (players : List (Player × Transform))
    (heading : Vec3q) (bullets : List BulletEnt) (enemies : List EnemyEnt) :
    ((run_player_movement k players).isNone = true ↔ players.length ≠ 1) ∧
    ((run_player_shooting players heading bullets).isNone = true ↔ players.length ≠ 1) ∧
    ((move_enemy_system players enemies).isNone = true ↔ players.length ≠ 1) := by
  refine ⟨?_, ?_, ?_⟩
  · rw [run_player_movement, isNone_map]
    exact query_single_length players
  · rw [run_player_shooting, isNone_map]
    exact query_single_length players
  · rw [move_enemy_system, isNone_map]
    exact query_single_length players

/-- Claim C10: immediately after setup, before any simulation tick, the
entity store holds exactly one Bullet entity, at the origin with direction
+Y and speed 750. -/
theorem claim10_setup_bullet :
    setup.bullets.length = 1 ∧
    setup.bullets = [⟨⟨750, ⟨0, 1, 0⟩⟩, ⟨0, 0, 0⟩⟩] :=
  ⟨rfl, rfl⟩

end Madge
